import Mathlib

/-!
# Verification of the PubMed paper-fetcher pipeline (`src/main.py`)

A shallow embedding of the program's pipeline:
query → ID list → detail fetch → heuristic classification → output.

External HTTP responses are modelled as explicit data passed to each
function (the parsed JSON envelopes); dictionary lookups with defaults
(`dict.get(k, d)`) become `Option.getD`; Python's `x or None` on a string
becomes `orNone`; the regular-expression search
`re.search(r'university|college|institute|lab|school', s, re.I)` becomes a
case-insensitive (ASCII `toLower`) substring test over the five literal
keywords, which is exactly what that alternation of literals denotes.
-/

namespace PubMed

/-- An author entry of a summary's `authors` array.  Both JSON fields may be
absent; `main.py` reads them with `author.get('name', '')` and
`author.get('affiliation', '')` (lines 52-53). -/
structure Author where
  name : Option String
  affiliation : Option String
deriving DecidableEq

/-- One parsed entry of the summary service's `result` object
(`result.<id>`): `title`, `pubdate`, `authors`, `elocationid`, each possibly
absent (`authors` defaulted to `[]` by `summary.get('authors', [])`). -/
structure Summary where
  title : Option String
  pubdate : Option String
  authors : List Author
  elocationid : Option String
deriving DecidableEq

/-- `summaries.get(pid, {})` at line 42: the empty dict, on which every
`get` returns its default. -/
def emptySummary : Summary :=
  { title := none, pubdate := none, authors := [], elocationid := none }

/-- The output dict built at lines 58-65 of `main.py`
(`Paper = Dict[str, Optional[str]]`), six keys in insertion order:
PubmedID, Title, Publication Date, Non-academic Author(s),
Company Affiliation(s), Corresponding Author Email. -/
structure Paper where
  pubmedID : Option String
  title : Option String
  pubDate : Option String
  nonAcademicAuthors : Option String
  companyAffiliations : Option String
  email : Option String
deriving DecidableEq

/-- `pat` matches at the start of `s` (character list form). -/
def startsWithChars : List Char → List Char → Bool
  | _, [] => true
  | [], _ :: _ => false
  | c :: cs, p :: ps => c == p && startsWithChars cs ps

/-- `pat` occurs somewhere inside `s`: what `re.search` with a literal
pattern decides. -/
def hasSubChars : List Char → List Char → Bool
  | [], pat => pat.isEmpty
  | c :: cs, pat => startsWithChars (c :: cs) pat || hasSubChars cs pat

/-- The five alternatives of the regular expression at line 54 of
`main.py`. -/
def academicKeywords : List String :=
  ["university", "college", "institute", "lab", "school"]

/-- A string lowered character by character — how `re.I` folds case for
these ASCII patterns. -/
def lowerChars (s : String) : List Char :=
  s.data.map Char.toLower

/-- Line 54: `re.search(r'university|college|institute|lab|school',
affiliation, re.I)` is not None — a case-insensitive substring test for any
of the five (already lowercase) keywords. -/
def isAcademicAff (affiliation : String) : Bool :=
  academicKeywords.any fun kw => hasSubChars (lowerChars affiliation) kw.data

/-- The body of the author loop at lines 51-56: an academic author is
skipped, a non-academic author has `name` appended to
`non_academic_authors` and `affiliation` appended to `companies`. -/
def classifyStep (acc : List String × List String) (author : Author) :
    List String × List String :=
  let name := author.name.getD ""
  let affiliation := author.affiliation.getD ""
  if isAcademicAff affiliation then acc
  else (acc.1 ++ [name], acc.2 ++ [affiliation])

/-- The author loop at lines 51-56 of `main.py`: starting from two empty
lists, fold `classifyStep` over the authors in order. -/
def classifyAuthors (authors : List Author) : List String × List String :=
  authors.foldl classifyStep ([], [])

/-- Python's `s or None` on a string: the empty string is falsy. -/
def orNone (s : String) : Option String :=
  if s = "" then none else some s

/-- Lines 42-65 of `main.py`: build one output dict for identifier `pid`
from its summary (the loop body of `fetch_paper_details`). -/
def assembleRecord (pid : String) (summary : Summary) : Paper :=
  let cls := classifyAuthors summary.authors
  { pubmedID := some pid
    title := summary.title
    pubDate := summary.pubdate
    nonAcademicAuthors := orNone (String.intercalate "; " cls.1)
    companyAffiliations := orNone (String.intercalate "; " cls.2)
    email := orNone (summary.elocationid.getD "") }

/-- `fetch_paper_details` (lines 29-67) with the parsed `result` object of
the summary response passed in as `result` (identifier → summary, `none`
for an identifier absent from the response, in which case
`summaries.get(pid, {})` yields the empty dict). -/
def fetch_paper_details (paper_ids : List String)
    (result : String → Option Summary) : List Paper :=
  paper_ids.map fun pid => assembleRecord pid ((result pid).getD emptySummary)

/-- The query parameters built at lines 18-23 of `main.py` for the search
request. -/
structure EsearchParams where
  db : String
  term : String
  retmax : Nat
  retmode : String
deriving DecidableEq

/-- Lines 18-23: `{'db': 'pubmed', 'term': query, 'retmax': 20,
'retmode': 'json'}`. -/
def esearchParams (query : String) : EsearchParams :=
  { db := "pubmed", term := query, retmax := 20, retmode := "json" }

/-- The `esearchresult` member of the search response, with its optional
`idlist` array. -/
structure EsearchResult where
  idlist : Option (List String)
deriving DecidableEq

/-- The parsed search response envelope: `esearchresult` may be absent. -/
structure EsearchResponse where
  esearchresult : Option EsearchResult
deriving DecidableEq

/-- Line 27 of `fetch_pubmed_ids`:
`data.get('esearchresult', {}).get('idlist', [])`, on the parsed response
`data`. -/
def fetch_pubmed_ids (data : EsearchResponse) : List String :=
  ((data.esearchresult.getD { idlist := none }).idlist.getD [])

/-- One CSV output: the header row (field names) and one row of values per
record, as `save_to_csv` writes them via `csv.DictWriter`. -/
abbrev CsvData : Type := List String × List (List (Option String))

/-- `papers[0].keys()` at line 71: the keys of an output dict, in insertion
order — the same six names for every record the program builds. -/
def paperKeys (_ : Paper) : List String :=
  ["PubmedID", "Title", "Publication Date", "Non-academic Author(s)",
   "Company Affiliation(s)", "Corresponding Author Email"]

/-- One CSV data row: the record's values in field-name order, as
`DictWriter.writerows` emits them. -/
def paperRow (p : Paper) : List (Option String) :=
  [p.pubmedID, p.title, p.pubDate, p.nonAcademicAuthors,
   p.companyAffiliations, p.email]

/-- `save_to_csv` (lines 69-73): the CSV content written to the file —
header from `papers[0].keys()`, then one row per record.  `none` models the
`IndexError` that `papers[0]` raises on an empty list. -/
def save_to_csv (papers : List Paper) : Option CsvData :=
  match papers.head? with
  | none => none
  | some p => some (paperKeys p, papers.map paperRow)

/-- `logging.INFO`, the level installed by `basicConfig` at line 9. -/
def infoLevel : Nat := 20

/-- `logging.DEBUG`, set at line 84 when `--debug` is given. -/
def debugLevel : Nat := 10

/-- The observable outcome of one run of `main` (lines 75-107): process
exit code, effective logger level, whether the "No papers found." warning
was logged, the CSV write (outer `Option`: was `save_to_csv` invoked at
all; inner `Option`: its result, `none` being the `papers[0]` failure), and
the records printed to the console. -/
structure RunResult where
  exitCode : Nat
  logLevel : Nat
  warnedNoPapers : Bool
  fileWritten : Option (Option CsvData)
  consoleLines : List Paper
deriving DecidableEq

/-- `main` (lines 75-107) after argument parsing, with the two network
responses supplied as data: `ids` is what `fetch_pubmed_ids` returned and
`result` the parsed summary envelope.  Mirrors the control flow: set the
log level from `--debug`; fetch details; on an empty record list warn and
exit 0 (before any write); otherwise write CSV when `--file` was given,
else print each record. -/
def runMain (debug : Bool) (file : Option String) (ids : List String)
    (result : String → Option Summary) : RunResult :=
  let level := if debug then debugLevel else infoLevel
  let papers := fetch_paper_details ids result
  if papers.isEmpty then
    { exitCode := 0, logLevel := level, warnedNoPapers := true,
      fileWritten := none, consoleLines := [] }
  else
    match file with
    | some _ =>
        { exitCode := 0, logLevel := level, warnedNoPapers := false,
          fileWritten := some (save_to_csv papers), consoleLines := [] }
    | none =>
        { exitCode := 0, logLevel := level, warnedNoPapers := false,
          fileWritten := none, consoleLines := papers }

end PubMed

/-! ## Supporting lemmas -/

namespace PubMed

/-- The non-academic authors of a list, in input order: those the
regular expression at line 54 does not match. -/
def nonAcademicOf (authors : List Author) : List Author :=
  authors.filter fun a => !isAcademicAff (a.affiliation.getD "")

/-- `startsWithChars s p` holds exactly when `p` is a prefix of `s`. -/
theorem startsWithChars_iff (p : List Char) :
    ∀ s, startsWithChars s p = true ↔ ∃ t, s = p ++ t := by
  induction p with
  | nil =>
      intro s
      simp [startsWithChars]
  | cons q qs ih =>
      intro s
      cases s with
      | nil => simp [startsWithChars]
      | cons c cs =>
          simp [startsWithChars, Bool.and_eq_true, beq_iff_eq, ih cs,
            List.cons_eq_cons]

/-- `hasSubChars s p` holds exactly when `p` occurs contiguously inside
`s` — the semantics of `re.search` with a literal pattern. -/
theorem hasSubChars_iff (p : List Char) :
    ∀ s, hasSubChars s p = true ↔ ∃ pre post, s = pre ++ (p ++ post) := by
  intro s
  induction s with
  | nil =>
      simp [hasSubChars, List.isEmpty_iff]
  | cons c cs ih =>
      simp [hasSubChars, Bool.or_eq_true, startsWithChars_iff, ih]
      constructor
      · rintro (⟨t, ht⟩ | ⟨pre, post, h⟩)
        · exact ⟨[], t, by simpa using ht⟩
        · exact ⟨c :: pre, post, by simp [h]⟩
      · rintro ⟨pre, post, h⟩
        cases pre with
        | nil => exact Or.inl ⟨post, by simpa using h⟩
        | cons x xs =>
            rcases List.cons_eq_cons.mp h with ⟨rfl, h2⟩
            exact Or.inr ⟨xs, post, h2⟩

/-- Unrolling the author loop from any accumulator: it appends the names
and affiliations of the non-academic authors, in input order. -/
theorem foldl_classifyStep (authors : List Author) :
    ∀ ns cs, authors.foldl classifyStep (ns, cs) =
      (ns ++ (nonAcademicOf authors).map (fun a => a.name.getD ""),
       cs ++ (nonAcademicOf authors).map (fun a => a.affiliation.getD "")) := by
  induction authors with
  | nil => intro ns cs; simp [nonAcademicOf]
  | cons a rest ih =>
      intro ns cs
      by_cases h : isAcademicAff (a.affiliation.getD "") = true
      · simp [List.foldl_cons, classifyStep, h, nonAcademicOf,
          List.filter_cons, ih]
      · simp only [Bool.not_eq_true] at h
        simp [List.foldl_cons, classifyStep, h, nonAcademicOf,
          List.filter_cons, ih]

/-- The author loop computes the names and the affiliations of the
non-academic authors, each in input order. -/
theorem classifyAuthors_eq_filter (authors : List Author) :
    classifyAuthors authors =
      ((nonAcademicOf authors).map (fun a => a.name.getD ""),
       (nonAcademicOf authors).map (fun a => a.affiliation.getD "")) := by
  simpa using foldl_classifyStep authors [] []

/-- `s or None` is `None` exactly for the empty string. -/
theorem orNone_eq_none (s : String) : orNone s = none ↔ s = "" := by
  unfold orNone
  split <;> simp_all

/-- `s or None` never produces the empty string as a value. -/
theorem orNone_ne_some_empty (s : String) : orNone s ≠ some "" := by
  unfold orNone
  split <;> simp_all

/-- `s or None` produces a value exactly when `s` is non-empty, and then
the value is `s` itself. -/
theorem orNone_eq_some (s x : String) :
    orNone s = some x ↔ s = x ∧ x ≠ "" := by
  unfold orNone
  split <;> simp_all
  rintro rfl
  simp_all

end PubMed

/-! ## The claims -/

namespace PubMed

/-- C1: an author is classified academic exactly when the affiliation
string contains, case-insensitively, one of the five substrings
`university`, `college`, `institute`, `lab`, `school` (plain substring
match); every other author — an empty affiliation included, since the
existential then fails — is non-academic, and the non-academic names and
affiliations are emitted in input author order, index-aligned (two maps
over the same filtered author list). -/
theorem C1_classifier_correct (a : Author) (authors : List Author) :
    (isAcademicAff (a.affiliation.getD "") = true ↔
      ∃ kw ∈ academicKeywords,
        ∃ pre post,
          lowerChars (a.affiliation.getD "") = pre ++ (kw.data ++ post)) ∧
    classifyAuthors authors =
      ((authors.filter fun x => !isAcademicAff (x.affiliation.getD "")).map
         (fun x => x.name.getD ""),
       (authors.filter fun x => !isAcademicAff (x.affiliation.getD "")).map
         (fun x => x.affiliation.getD "")) := by
  constructor
  · simp [isAcademicAff, List.any_eq_true, hasSubChars_iff]
  · simpa [nonAcademicOf] using classifyAuthors_eq_filter authors

/-- C2: `fetch_paper_details` returns exactly one record per input
identifier (same length), and for every position the i-th record is the
one assembled from the i-th identifier and that identifier's own summary
lookup — the output order is the identifier order, for identifiers present
in the response and absent alike.  An identifier absent from the response
still yields a record — with Title, Publication Date, Non-academic
Author(s), Company Affiliation(s) and Corresponding Author Email all
null — rather than being dropped. -/
theorem C2_records (ids : List String) (result : String → Option Summary) :
    (fetch_paper_details ids result).length = ids.length ∧
    (∀ (i : Nat) (pid : String), ids[i]? = some pid →
      (fetch_paper_details ids result)[i]? =
        some (assembleRecord pid ((result pid).getD emptySummary))) ∧
    (∀ (i : Nat) (pid : String), ids[i]? = some pid → result pid = none →
      (fetch_paper_details ids result)[i]? = some
        { pubmedID := some pid, title := none, pubDate := none,
          nonAcademicAuthors := none, companyAffiliations := none,
          email := none }) := by
  refine ⟨by simp [fetch_paper_details], ?_, ?_⟩
  · intro i pid hpid
    simp [fetch_paper_details, List.getElem?_map, hpid]
  · intro i pid hpid hres
    simp [fetch_paper_details, List.getElem?_map, hpid, hres]
    rfl

/-- C3 counterexample: a single non-academic author whose affiliation is
the empty string.  A qualifying author exists (the name list has length
one), yet Company Affiliation(s) is null, because the code tests the
joined string (`"; ".join(companies) or None`) and `"; ".join([""])` is
the falsy empty string — refuting "null exactly when no qualifying
authors exist" and "if at least one non-academic author exists both
fields are non-null". -/
theorem C3_counterexample :
    (classifyAuthors [⟨some "J", some ""⟩]).1.length = 1 ∧
    (assembleRecord "1"
      ⟨some "T", some "2020", [⟨some "J", some ""⟩], none⟩).companyAffiliations
      = none := by
  decide

/-- C3 amended: the two fields are parallel `"; "`-joined strings over
equal-length index-aligned sequences — the i-th name and the i-th
affiliation come from the same (i-th non-academic) author, and a non-null
field holds exactly the `"; "`-join of its sequence; each field is null
exactly when its own joined string is empty and is never stored as an
empty string; when no qualifying authors exist both fields are null.  (A
field can thus be null even though a qualifying author exists, when every
joined component is empty.) -/
theorem C3_amended_fields (pid : String) (s : Summary) :
    ((classifyAuthors s.authors).1.length =
      (classifyAuthors s.authors).2.length) ∧
    (∀ (i : Nat) (a : Author), (nonAcademicOf s.authors)[i]? = some a →
      (classifyAuthors s.authors).1[i]? = some (a.name.getD "") ∧
      (classifyAuthors s.authors).2[i]? = some (a.affiliation.getD "")) ∧
    ((assembleRecord pid s).nonAcademicAuthors = none ↔
      String.intercalate "; " (classifyAuthors s.authors).1 = "") ∧
    (String.intercalate "; " (classifyAuthors s.authors).1 ≠ "" →
      (assembleRecord pid s).nonAcademicAuthors =
        some (String.intercalate "; " (classifyAuthors s.authors).1)) ∧
    ((assembleRecord pid s).nonAcademicAuthors ≠ some "") ∧
    ((assembleRecord pid s).companyAffiliations = none ↔
      String.intercalate "; " (classifyAuthors s.authors).2 = "") ∧
    (String.intercalate "; " (classifyAuthors s.authors).2 ≠ "" →
      (assembleRecord pid s).companyAffiliations =
        some (String.intercalate "; " (classifyAuthors s.authors).2)) ∧
    ((assembleRecord pid s).companyAffiliations ≠ some "") ∧
    ((classifyAuthors s.authors).1 = [] →
      (assembleRecord pid s).nonAcademicAuthors = none ∧
      (assembleRecord pid s).companyAffiliations = none) := by
  have hlen : (classifyAuthors s.authors).1.length =
      (classifyAuthors s.authors).2.length := by
    rw [classifyAuthors_eq_filter]
    simp
  refine ⟨hlen, ?_, ?_, ?_, ?_, ?_, ?_, ?_, ?_⟩
  · intro i a ha
    rw [classifyAuthors_eq_filter]
    simp [List.getElem?_map, ha]
  · simp [assembleRecord, orNone_eq_none]
  · intro hne
    simp [assembleRecord, orNone_eq_some, hne]
  · simp only [assembleRecord]
    exact orNone_ne_some_empty _
  · simp [assembleRecord, orNone_eq_none]
  · intro hne
    simp [assembleRecord, orNone_eq_some, hne]
  · simp only [assembleRecord]
    exact orNone_ne_some_empty _
  · intro h1
    have h2 : (classifyAuthors s.authors).2 = [] := by
      rw [h1] at hlen
      exact List.length_eq_zero.mp hlen.symm
    constructor
    · simp [assembleRecord, orNone_eq_none, h1]
      rfl
    · simp [assembleRecord, orNone_eq_none, h2]
      rfl

/-- C4: when `main` writes CSV, the write is attempted exactly when the
record list is non-empty (the driver short-circuits on zero records), and
whenever it is attempted it succeeds — the `papers[0]` access never fails
— producing a header row with the six field names in the fixed order
PubmedID, Title, Publication Date, Non-academic Author(s),
Company Affiliation(s), Corresponding Author Email, then one row per
record. -/
theorem C4_csv (debug : Bool) (fname : String) (ids : List String)
    (result : String → Option Summary) :
    ((runMain debug (some fname) ids result).fileWritten =
      if (fetch_paper_details ids result).isEmpty then none
      else some (save_to_csv (fetch_paper_details ids result))) ∧
    (∀ c, (runMain debug (some fname) ids result).fileWritten = some c →
      c = some
        (["PubmedID", "Title", "Publication Date", "Non-academic Author(s)",
          "Company Affiliation(s)", "Corresponding Author Email"],
         (fetch_paper_details ids result).map paperRow) ∧
      ∀ hdr rows, c = some (hdr, rows) →
        hdr.length = 6 ∧
        rows.length = (fetch_paper_details ids result).length) := by
  constructor
  · by_cases h : (fetch_paper_details ids result).isEmpty <;>
      simp [runMain, h]
  · intro c hc
    by_cases h : (fetch_paper_details ids result).isEmpty
    · simp [runMain, h] at hc
    · simp [runMain, h] at hc
      subst hc
      cases hp : (fetch_paper_details ids result) with
      | nil => simp [hp] at h
      | cons p ps =>
          constructor
          · simp [save_to_csv, hp, paperKeys]
          · intro hdr rows hrow
            simp [save_to_csv, hp, paperKeys] at hrow
            obtain ⟨h1, h2⟩ := hrow
            subst h1
            simp [← h2, hp]

/-- C5: a query that resolves to zero identifiers makes the run log the
"No papers found." warning, exit with code 0, print nothing, and write no
output file — whatever the `--file` and `--debug` options were. -/
theorem C5_zero (debug : Bool) (file : Option String)
    (result : String → Option Summary) :
    runMain debug file [] result =
      { exitCode := 0, logLevel := if debug then debugLevel else infoLevel,
        warnedNoPapers := true, fileWritten := none, consoleLines := [] } := by
  simp [runMain, fetch_paper_details]

/-- C6: the Corresponding Author Email field is null exactly when the
summary's `elocationid` field is absent or the empty string, and otherwise
equals that field verbatim. -/
theorem C6_email (pid : String) (s : Summary) :
    ((assembleRecord pid s).email = none ↔
      s.elocationid = none ∨ s.elocationid = some "") ∧
    (∀ e, s.elocationid = some e → e ≠ "" →
      (assembleRecord pid s).email = some e) := by
  constructor
  · cases h : s.elocationid with
    | none => simp [assembleRecord, h, orNone_eq_none]
    | some e => simp [assembleRecord, h, orNone_eq_none]
  · intro e he hne
    simp [assembleRecord, he, orNone_eq_some, hne]

/-- C7: the classifier is a pure, deterministic function of the author
list — running it twice on the same list yields identical output, and
equal inputs yield equal outputs. -/
theorem C7_pure (authors : List Author) :
    classifyAuthors authors = classifyAuthors authors ∧
    ∀ bs, authors = bs → classifyAuthors authors = classifyAuthors bs :=
  ⟨rfl, fun _ h => h ▸ rfl⟩

/-- C8 counterexample: the resolver does not truncate: a response whose
`esearchresult.idlist` holds 21 identifiers is returned whole, so the
returned sequence is not always of length at most 20. -/
theorem C8_counterexample :
    ¬ (fetch_pubmed_ids ⟨some ⟨some (List.replicate 21 "1")⟩⟩).length ≤ 20 := by
  decide

/-- C8 amended: the resolver's request carries `retmax = 20`, and from the
response it extracts `esearchresult.idlist` verbatim in server order —
returning the empty sequence when either level of the envelope lacks the
expected field.  The returned sequence's length is whatever the server
sent; the 20 bound holds only if the server honors `retmax`. -/
theorem C8_amended_resolver (query : String) (data : EsearchResponse) :
    ((esearchParams query).retmax = 20) ∧
    (∀ er l, data.esearchresult = some er → er.idlist = some l →
      fetch_pubmed_ids data = l) ∧
    (data.esearchresult = none → fetch_pubmed_ids data = []) ∧
    (∀ er, data.esearchresult = some er → er.idlist = none →
      fetch_pubmed_ids data = []) := by
  refine ⟨rfl, ?_, ?_, ?_⟩
  · intro er l h1 h2
    simp [fetch_pubmed_ids, h1, h2]
  · intro h
    simp [fetch_pubmed_ids, h]
  · intro er h1 h2
    simp [fetch_pubmed_ids, h1, h2]

/-- C9: the PubmedID of the i-th output record is always the i-th input
identifier wrapped in `some` — never null, even for an identifier absent
from the response — while each of the other five fields can be null (the
empty summary nulls them all). -/
theorem C9_pubmedid (ids : List String) (result : String → Option Summary) :
    (∀ (i : Nat) (pid : String), ids[i]? = some pid →
      ((fetch_paper_details ids result)[i]?).map Paper.pubmedID =
        some (some pid)) ∧
    ((assembleRecord "0" emptySummary).title = none ∧
     (assembleRecord "0" emptySummary).pubDate = none ∧
     (assembleRecord "0" emptySummary).nonAcademicAuthors = none ∧
     (assembleRecord "0" emptySummary).companyAffiliations = none ∧
     (assembleRecord "0" emptySummary).email = none) := by
  constructor
  · intro i pid hpid
    simp [fetch_paper_details, List.getElem?_map, hpid, assembleRecord]
  · exact ⟨rfl, rfl, rfl, rfl, rfl⟩

/-- C10: the `--debug` flag does not influence the produced records — for
the same resolved identifiers and the same summary response, two runs
differing only in the flag have the same exit code, the same CSV output,
the same console output and the same warning; only the logger level
changes. -/
theorem C10_debug (d1 d2 : Bool) (file : Option String) (ids : List String)
    (result : String → Option Summary) :
    (runMain d1 file ids result).exitCode =
      (runMain d2 file ids result).exitCode ∧
    (runMain d1 file ids result).fileWritten =
      (runMain d2 file ids result).fileWritten ∧
    (runMain d1 file ids result).consoleLines =
      (runMain d2 file ids result).consoleLines ∧
    (runMain d1 file ids result).warnedNoPapers =
      (runMain d2 file ids result).warnedNoPapers := by
  by_cases h : (fetch_paper_details ids result).isEmpty <;>
    cases file <;> simp [runMain, h]

end PubMed
